import Mathlib

/-!
Shallow embedding of the peer-connection negotiation and recovery state
machine of `src/src/Home/VideoChat.tsx` (GuffGaff client).

The component's React refs and state hooks are collapsed into one explicit
record `AppState`; each socket/RTC callback becomes a function
`AppState → AppState` (paired with the list of socket events it emits when
the handler can emit).  Asynchronous handlers are modelled atomically,
except the `onnegotiationneeded` handler, whose suspension point at
`await pc.setLocalDescription()` is made explicit (`negTriggerStart` /
`negTriggerResume`) because the re-entrancy claims quantify over triggers
interleaved at exactly that point.
-/

namespace GuffGaff

/-- Kind of a local media track (`MediaStreamTrack.kind`). -/
inductive TrackKind where
  | audio
  | video
deriving DecidableEq, Repr

/-- A local media track: its kind, its `enabled` flag (flipped by the mute
toggles) and whether `stop()` has been called on it. -/
structure MediaTrack where
  kind : TrackKind
  enabled : Bool
  stopped : Bool
deriving DecidableEq, Repr

/-- RTCPeerConnection signaling states relevant to the source. -/
inductive SignalingState where
  | stable
  | haveLocalOffer
  | haveRemoteOffer
deriving DecidableEq, Repr

/-- Whether a signaling state is `stable` (the source compares
`pc.signalingState !== "stable"`). -/
def SignalingState.isStable : SignalingState → Bool
  | .stable => true
  | _ => false

/-- Type tag of a session description. -/
inductive SdpType where
  | offer
  | answer
deriving DecidableEq, Repr

/-- An RTCSessionDescription, with the SDP body kept opaque (a number). -/
structure SessionDescription where
  sdpType : SdpType
  sdp : Nat
deriving DecidableEq, Repr

/-- The answer `pc.createAnswer()` produces for a given remote offer; the
platform call is opaque, so the answer is modelled as a function of the
offer's payload. -/
def mkAnswer (offer : SessionDescription) : SessionDescription :=
  { sdpType := SdpType.answer, sdp := offer.sdp }

/-- Model of one `RTCPeerConnection` (a Negotiation Handle): identity,
whether `close()` has been called, signaling state, the two descriptions,
the local tracks attached via `addTrack`, and the remote candidates added
via `addIceCandidate`. -/
structure PeerConnection where
  pcId : Nat
  closed : Bool
  signalingState : SignalingState
  localDescription : Option SessionDescription
  remoteDescription : Option SessionDescription
  attachedTracks : List MediaTrack
  candidates : List Nat
deriving DecidableEq, Repr

/-- The offer `await pc.setLocalDescription()` generates inside the
`onnegotiationneeded` handler (opaque platform call, keyed by the
connection's identity). -/
def mkOffer (pc : PeerConnection) : SessionDescription :=
  { sdpType := SdpType.offer, sdp := pc.pcId }

/-- The `connectionState` React state hook of the component. -/
structure ConnectionState where
  isConnected : Bool
  isWaiting : Bool
  error : Option String
  status : String
  isInitiator : Bool
  reconnectAttempts : Nat
deriving DecidableEq, Repr

/-- ICE connection states (the source switches on `failed`, `disconnected`
and `connected`; the rest fall through). -/
inductive IceState where
  | new
  | checking
  | connected
  | completed
  | disconnected
  | failed
  | closed
deriving DecidableEq, Repr

/-- The whole component state: the `streams` and `connectionState` and
`controls` hooks, the mutable refs (`peerConnectionRef`,
`isNegotiatingRef`, `makingOfferRef`, `reconnectTimeoutRef`), plus a ledger
`closedPCs` of handles already torn down (so the at-most-one-live-handle
invariant is expressible) and the socket's connectivity. -/
structure AppState where
  localStream : Option (List MediaTrack)
  remoteStream : Option Nat
  connectionState : ConnectionState
  isMuted : Bool
  isVideoOff : Bool
  peerConnection : Option PeerConnection
  closedPCs : List PeerConnection
  isNegotiating : Bool
  makingOffer : Bool
  scheduledRematch : Option Nat
  socketConnected : Bool
  socketInitAttempts : Nat
  nextPcId : Nat
deriving DecidableEq, Repr

/-- Events the component emits over the signaling socket. -/
inductive SocketEmit where
  | offer (d : SessionDescription)
  | answer (d : SessionDescription)
  | iceCandidate (c : Nat)
  | findMatch
deriving DecidableEq, Repr

/-- Number of `offer` events in an emission list. -/
def countOffers : List SocketEmit → Nat
  | [] => 0
  | SocketEmit.offer _ :: es => 1 + countOffers es
  | _ :: es => countOffers es

/-- Constant `MAX_RECONNECT_ATTEMPTS` from the source. -/
def MAX_RECONNECT_ATTEMPTS : Nat := 3

/-- Constant `RECONNECT_DELAY` (milliseconds) from the source. -/
def RECONNECT_DELAY : Nat := 2000

/-- The `cleanupPeerConnection` callback: closes the current peer
connection if present, nulls the ref, and clears the remote stream.  The
closed handle is shelved on the `closedPCs` ledger so that its final state
remains observable. -/
def cleanupPeerConnection (st : AppState) : AppState :=
  match st.peerConnection with
  | none => { st with remoteStream := none }
  | some pc =>
      { st with
          peerConnection := none
          closedPCs := { pc with closed := true } :: st.closedPCs
          remoteStream := none }

/-- The `handleDisconnect` callback: cleanup plus resetting the
connected/waiting/initiator flags and the status text. -/
def handleDisconnect (st : AppState) : AppState :=
  let st1 := cleanupPeerConnection st
  { st1 with
      connectionState :=
        { st1.connectionState with
            isConnected := false
            isWaiting := false
            status := "Disconnected"
            isInitiator := false } }

/-- A freshly constructed `RTCPeerConnection` with the given local tracks
attached. -/
def newPC (ident : Nat) (tracks : List MediaTrack) : PeerConnection :=
  { pcId := ident
    closed := false
    signalingState := SignalingState.stable
    localDescription := none
    remoteDescription := none
    attachedTracks := tracks
    candidates := [] }

/-- The `createPeerConnection` callback: tears down any existing handle
first, then constructs a fresh connection and attaches every track of the
local stream. -/
def createPeerConnection (st : AppState) : AppState :=
  let st1 := cleanupPeerConnection st
  { st1 with
      peerConnection := some (newPC st1.nextPcId (st1.localStream.getD []))
      nextPcId := st1.nextPcId + 1 }

/-- Flip the `enabled` flag of an audio track (identity on video tracks). -/
def toggleTrackAudio (t : MediaTrack) : MediaTrack :=
  match t.kind with
  | TrackKind.audio => { t with enabled := !t.enabled }
  | TrackKind.video => t

/-- Flip the `enabled` flag of a video track (identity on audio tracks). -/
def toggleTrackVideo (t : MediaTrack) : MediaTrack :=
  match t.kind with
  | TrackKind.video => { t with enabled := !t.enabled }
  | TrackKind.audio => t

/-- The `toggleAudio` callback: if a local stream exists, flip `enabled` on
all its audio tracks and flip the `isMuted` control; otherwise do nothing.
It emits no socket events. -/
def toggleAudio (st : AppState) : AppState × List SocketEmit :=
  match st.localStream with
  | none => (st, [])
  | some l =>
      ({ st with
          localStream := some (l.map toggleTrackAudio)
          isMuted := !st.isMuted }, [])

/-- The `toggleVideo` callback, symmetric to `toggleAudio`. -/
def toggleVideo (st : AppState) : AppState × List SocketEmit :=
  match st.localStream with
  | none => (st, [])
  | some l =>
      ({ st with
          localStream := some (l.map toggleTrackVideo)
          isVideoOff := !st.isVideoOff }, [])

/-- The `stopped` flags of the local tracks, in order. -/
def stoppedFlags (st : AppState) : List Bool :=
  (st.localStream.getD []).map MediaTrack.stopped

/-- The entry half of the `pc.onnegotiationneeded` handler, up to the
suspension at `await pc.setLocalDescription()`.  Returns `true` when the
guard was passed and the handler is now suspended with both flags held.
A guard-failing invocation completes synchronously: the early `return`
sits inside the `try`, so the `finally` block still clears both flags. -/
def negTriggerStart (st : AppState) : AppState × Bool :=
  match st.peerConnection with
  | none => (st, false)
  | some _ =>
      if st.isNegotiating || !st.connectionState.isInitiator then
        ({ st with isNegotiating := false, makingOffer := false }, false)
      else
        ({ st with isNegotiating := true, makingOffer := true }, true)

/-- The resumption half of `pc.onnegotiationneeded` after the suspension:
on success the generated offer becomes the local description and is
emitted; on failure (`fails = true`, i.e. `setLocalDescription` rejected)
the catch branch records a non-fatal error.  Either way the `finally`
block clears both flags. -/
def negTriggerResume (st : AppState) (fails : Bool) : AppState × List SocketEmit :=
  match st.peerConnection with
  | none => ({ st with isNegotiating := false, makingOffer := false }, [])
  | some pc =>
      if fails then
        ({ st with
            isNegotiating := false
            makingOffer := false
            connectionState :=
              { st.connectionState with error := some "Connection negotiation failed" } }, [])
      else
        let offer := mkOffer pc
        ({ st with
            peerConnection := some
              { pc with
                  localDescription := some offer
                  signalingState := SignalingState.haveLocalOffer }
            isNegotiating := false
            makingOffer := false }, [SocketEmit.offer offer])

/-- The `pc.onnegotiationneeded` handler run atomically (no other callback
interleaved at the suspension point). -/
def onNegotiationNeeded (st : AppState) (fails : Bool) : AppState × List SocketEmit :=
  let s := negTriggerStart st
  if s.2 then negTriggerResume s.1 fails else (s.1, [])

/-- The `pc.ontrack` handler: if a stream is carried by the event, adopt it
wholesale as the remote stream and mark the session connected.  The
callback only exists while a peer connection does. -/
def onTrack (st : AppState) (sid : Option Nat) : AppState :=
  match st.peerConnection, sid with
  | some _, some s =>
      { st with
          remoteStream := some s
          connectionState :=
            { st.connectionState with
                isConnected := true
                status := "Connected to partner"
                error := none } }
  | _, _ => st

/-- The `pc.onicecandidate` handler: a locally gathered candidate is
emitted immediately, but only while the socket reports connected. -/
def onLocalIceCandidate (st : AppState) (c : Option Nat) : AppState × List SocketEmit :=
  match st.peerConnection, c with
  | some _, some cand =>
      if st.socketConnected then (st, [SocketEmit.iceCandidate cand]) else (st, [])
  | _, _ => (st, [])

/-- The `pc.oniceconnectionstatechange` handler.  On `failed` below the
retry ceiling: bump the counter and (re)schedule the 2 s re-match timer;
at the ceiling: disconnect and surface a terminal error, without touching
the timer.  On `connected`: reset the counter and clear the error.  On
`disconnected`: update the status text only. -/
def onIceStateChange (st : AppState) (s : IceState) : AppState :=
  match s with
  | IceState.failed =>
      if st.connectionState.reconnectAttempts < MAX_RECONNECT_ATTEMPTS then
        { st with
            connectionState :=
              { st.connectionState with
                  reconnectAttempts := st.connectionState.reconnectAttempts + 1
                  status := "Connection failed. Attempting to reconnect..." }
            scheduledRematch := some RECONNECT_DELAY }
      else
        let st1 := handleDisconnect st
        { st1 with
            connectionState :=
              { st1.connectionState with
                  error := some "Connection failed after multiple attempts" } }
  | IceState.disconnected =>
      { st with
          connectionState :=
            { st.connectionState with
                status := "Connection interrupted. Attempting to restore..." } }
  | IceState.connected =>
      { st with
          connectionState :=
            { st.connectionState with
                reconnectAttempts := 0
                error := none
                status := "Connected to partner" } }
  | _ => st

/-- The collision predicate of the `socket.on("offer")` handler:
`makingOfferRef.current || (pc.signalingState !== "stable" && !connectionState.isInitiator)`. -/
def offerCollision (st : AppState) (pc : PeerConnection) : Bool :=
  st.makingOffer || (!pc.signalingState.isStable && !st.connectionState.isInitiator)

/-- The `socket.on("offer")` handler.  A missing handle is created on the
spot; a collision returns early, discarding the offer; otherwise the offer
becomes the remote description, an answer is generated, applied locally
and emitted.  `fails = true` models a rejection of one of the awaited
description steps, caught by the handler's catch branch, which calls
`handleDisconnect`. -/
def onOffer (st : AppState) (d : SessionDescription) (fails : Bool) :
    AppState × List SocketEmit :=
  let st0 := if st.peerConnection.isSome then st else createPeerConnection st
  match st0.peerConnection with
  | none => (st0, [])
  | some pc =>
      if offerCollision st0 pc then (st0, [])
      else if fails then (handleDisconnect st0, [])
      else
        let answer := mkAnswer d
        ({ st0 with
            peerConnection := some
              { pc with
                  remoteDescription := some d
                  localDescription := some answer
                  signalingState := SignalingState.stable } },
          [SocketEmit.answer answer])

/-- The `socket.on("answer")` handler: dropped when no handle exists;
otherwise the answer becomes the remote description.  A rejection of
`setRemoteDescription` (`fails = true`) is caught and handled by
`handleDisconnect`. -/
def onAnswer (st : AppState) (d : SessionDescription) (fails : Bool) :
    AppState × List SocketEmit :=
  match st.peerConnection with
  | none => (st, [])
  | some pc =>
      if fails then (handleDisconnect st, [])
      else
        ({ st with
            peerConnection := some
              { pc with
                  remoteDescription := some d
                  signalingState := SignalingState.stable } }, [])

/-- The `socket.on("ice-candidate")` handler: the candidate is applied only
when a handle exists and its remote description is set; otherwise it is
dropped without queueing. -/
def onIceCandidateIn (st : AppState) (c : Nat) : AppState :=
  match st.peerConnection with
  | none => st
  | some pc =>
      match pc.remoteDescription with
      | none => st
      | some _ =>
          { st with peerConnection := some { pc with candidates := pc.candidates ++ [c] } }

/-- The `socket.on("match")` handler: this side becomes the initiator,
leaves the waiting state, and builds a fresh peer connection. -/
def onMatch (st : AppState) : AppState :=
  let st1 :=
    { st with
        connectionState :=
          { st.connectionState with
              isInitiator := true
              isWaiting := false
              status := "Partner found! Establishing connection..." } }
  createPeerConnection st1

/-- The `socket.on("waiting")` handler: sets the waiting flag and status
text (and nothing else). -/
def onWaiting (st : AppState) : AppState :=
  { st with
      connectionState :=
        { st.connectionState with
            isWaiting := true
            status := "Waiting for a partner..." } }

/-- The `socket.on("partner-left")` handler: disconnect, then overwrite the
status text. -/
def onPartnerLeft (st : AppState) : AppState :=
  let st1 := handleDisconnect st
  { st1 with
      connectionState :=
        { st1.connectionState with
            status := "Partner left. You can find a new partner." } }

/-- The `socket.on("connect")` handler. -/
def onConnect (st : AppState) : AppState :=
  { st with
      socketConnected := true
      connectionState :=
        { st.connectionState with
            error := none
            status := "Connected to server" } }

/-- The `socket.on("connect_error")` handler. -/
def onConnectError (st : AppState) : AppState :=
  { st with
      connectionState :=
        { st.connectionState with error := some "Connection error" } }

/-- The `findPartner` callback: with the socket disconnected it only
re-runs socket setup (recorded by a counter) and emits nothing; otherwise
it cleans up the current handle, enters the waiting state and emits
`find-match`.  Note the source has no guard on `isWaiting` or the
negotiation flags here. -/
def findPartner (st : AppState) : AppState × List SocketEmit :=
  if !st.socketConnected then
    ({ st with socketInitAttempts := st.socketInitAttempts + 1 }, [])
  else
    let st1 := cleanupPeerConnection st
    ({ st1 with
        connectionState :=
          { st1.connectionState with
              isConnected := false
              isWaiting := true
              status := "Looking for a partner..." } }, [SocketEmit.findMatch])

/-- A click on the find-partner button: the button carries
`disabled=\x7bconnectionState.isWaiting\x7d`, so a click while waiting
does nothing; otherwise `findPartner` runs. -/
def findPartnerClick (st : AppState) : AppState × List SocketEmit :=
  if st.connectionState.isWaiting then (st, []) else findPartner st

/-- The events the component reacts to: inbound socket events, the RTC
callbacks (which only fire while a peer connection exists), the reconnect
timer, button clicks and media acquisition. -/
inductive Ev where
  | connectOk
  | connectErr
  | matchEv
  | offerIn (d : SessionDescription) (fails : Bool)
  | answerIn (d : SessionDescription) (fails : Bool)
  | candidateIn (c : Nat)
  | partnerLeft
  | waitingEv
  | trackEv (sid : Nat)
  | iceState (s : IceState)
  | negNeeded (fails : Bool)
  | localCand (c : Nat)
  | findClick
  | toggleA
  | toggleV
  | mediaAcquired (ts : List MediaTrack)
  | rematchTimer
deriving DecidableEq, Repr

/-- One step of the component: dispatch an event to its handler.  The RTC
callbacks (`trackEv`, `iceState`, `negNeeded`, `localCand`) are registered
on the peer connection and hence only fire while one exists — the handler
definitions already guard on that. -/
def step (st : AppState) (e : Ev) : AppState :=
  match e with
  | Ev.connectOk => onConnect st
  | Ev.connectErr => onConnectError st
  | Ev.matchEv => onMatch st
  | Ev.offerIn d f => (onOffer st d f).1
  | Ev.answerIn d f => (onAnswer st d f).1
  | Ev.candidateIn c => onIceCandidateIn st c
  | Ev.partnerLeft => onPartnerLeft st
  | Ev.waitingEv => onWaiting st
  | Ev.trackEv sid => onTrack st (some sid)
  | Ev.iceState s => if st.peerConnection.isSome then onIceStateChange st s else st
  | Ev.negNeeded f => (onNegotiationNeeded st f).1
  | Ev.localCand c => (onLocalIceCandidate st (some c)).1
  | Ev.findClick => (findPartnerClick st).1
  | Ev.toggleA => (toggleAudio st).1
  | Ev.toggleV => (toggleVideo st).1
  | Ev.mediaAcquired ts => { st with localStream := some ts }
  | Ev.rematchTimer =>
      match st.scheduledRematch with
      | some _ => (findPartner { st with scheduledRematch := none }).1
      | none => st

/-- The component's initial state (the `useState` initialisers and refs). -/
def initState : AppState :=
  { localStream := none
    remoteStream := none
    connectionState :=
      { isConnected := false
        isWaiting := false
        error := none
        status := "Initializing..."
        isInitiator := false
        reconnectAttempts := 0 }
    isMuted := false
    isVideoOff := false
    peerConnection := none
    closedPCs := []
    isNegotiating := false
    makingOffer := false
    scheduledRematch := none
    socketConnected := false
    socketInitAttempts := 0
    nextPcId := 0 }

/-- State reached from the initial state by a sequence of events. -/
def reach (evs : List Ev) : AppState :=
  evs.foldl step initState

/-- Run `n` renegotiation triggers, each handled atomically, counting the
offers they emit. -/
def runTriggers : AppState → Nat → AppState × Nat
  | st, 0 => (st, 0)
  | st, n + 1 =>
      let s1 := onNegotiationNeeded st false
      let s2 := runTriggers s1.1 n
      (s2.1, countOffers s1.2 + s2.2)

/-- Every trigger of the sequence fires while the `isNegotiating` flag is
held (i.e. sees the flag set when its handler starts). -/
def HeldSeq : AppState → Nat → Prop
  | _, 0 => True
  | st, n + 1 => st.isNegotiating = true ∧ HeldSeq (onNegotiationNeeded st false).1 n

/-- Every shelved handle on the ledger has been closed. -/
def LedgerClosed (st : AppState) : Prop :=
  ∀ pc ∈ st.closedPCs, pc.closed = true

/-- Number of live (non-closed) handles in the whole state: the current
handle plus anything not closed on the ledger. -/
def openHandles (st : AppState) : Nat :=
  (match st.peerConnection with
   | some pc => if pc.closed then 0 else 1
   | none => 0) +
    (st.closedPCs.filter (fun p => !p.closed)).length

/-- A sample local stream: one audio and one video track, both enabled. -/
def exTracks : List MediaTrack :=
  [{ kind := TrackKind.audio, enabled := true, stopped := false },
   { kind := TrackKind.video, enabled := true, stopped := false }]

/-- A sample live peer connection. -/
def exPC : PeerConnection := newPC 5 exTracks

/-- A sample state with a live handle, a connected socket and a local
stream. -/
def exState : AppState :=
  { initState with
      peerConnection := some exPC
      socketConnected := true
      localStream := some exTracks }

theorem toggleTrackAudio_toggleTrackAudio (t : MediaTrack) :
    toggleTrackAudio (toggleTrackAudio t) = t := by
  obtain ⟨k, e, s⟩ := t
  cases k <;> simp [toggleTrackAudio]

theorem map_toggleTrackAudio_toggleTrackAudio (l : List MediaTrack) :
    (l.map toggleTrackAudio).map toggleTrackAudio = l := by
  induction l with
  | nil => rfl
  | cons t ts ih => simp [toggleTrackAudio_toggleTrackAudio, ih]

theorem stopped_toggleTrackAudio (t : MediaTrack) :
    (toggleTrackAudio t).stopped = t.stopped := by
  obtain ⟨k, e, s⟩ := t
  cases k <;> simp [toggleTrackAudio]

theorem map_stopped_toggleTrackAudio (l : List MediaTrack) :
    (l.map toggleTrackAudio).map MediaTrack.stopped = l.map MediaTrack.stopped := by
  induction l with
  | nil => rfl
  | cons t ts ih => simp [stopped_toggleTrackAudio, ih]

/-- C9: toggling audio twice returns every audio track's `enabled` flag (in
fact the whole state) to its original value; neither call emits a socket
event, and the first call leaves the peer connection, the negotiation
flags, the connection status and every track's `stopped` flag untouched. -/
theorem C9_toggle_audio_roundtrip (st : AppState) :
    (toggleAudio st).2 = [] ∧
    (toggleAudio (toggleAudio st).1).2 = [] ∧
    (toggleAudio (toggleAudio st).1).1 = st ∧
    (toggleAudio st).1.peerConnection = st.peerConnection ∧
    (toggleAudio st).1.isNegotiating = st.isNegotiating ∧
    (toggleAudio st).1.makingOffer = st.makingOffer ∧
    (toggleAudio st).1.connectionState = st.connectionState ∧
    stoppedFlags (toggleAudio st).1 = stoppedFlags st := by
  obtain ⟨ls, rs, cs, mu, vo, pc, cl, neg, mo, sr, sc, sia, nid⟩ := st
  cases ls with
  | none => simp [toggleAudio, stoppedFlags]
  | some l =>
      refine ⟨rfl, rfl, ?_, rfl, rfl, rfl, rfl, ?_⟩
      · simp only [toggleAudio, Bool.not_not]
        rw [map_toggleTrackAudio_toggleTrackAudio]
      · exact map_stopped_toggleTrackAudio l

/-- C10: `cleanupPeerConnection` leaves the handle and the remote stream
null, a second consecutive call changes nothing, and no call touches the
local stream or the connection-status fields. -/
theorem C10_cleanup_idempotent (st : AppState) :
    (cleanupPeerConnection st).peerConnection = none ∧
    (cleanupPeerConnection st).remoteStream = none ∧
    cleanupPeerConnection (cleanupPeerConnection st) = cleanupPeerConnection st ∧
    (cleanupPeerConnection st).localStream = st.localStream ∧
    (cleanupPeerConnection st).connectionState = st.connectionState := by
  obtain ⟨ls, rs, cs, mu, vo, pc, cl, neg, mo, sr, sc, sia, nid⟩ := st
  cases pc <;> simp [cleanupPeerConnection]

/-- C1: an inbound offer is silently discarded (state and emissions
untouched) when this side is making its own offer or is in a non-stable
signaling state without the initiator role; otherwise it becomes the
remote description, the generated answer becomes the local description and
is emitted.  Since a peer without the initiator role never emits an offer
from the renegotiation trigger, in any mutual-offer interleaving only the
initiator's offer exists and a colliding inbound offer is the one that is
discarded. -/
theorem C1_offer_glare (st : AppState) (pc : PeerConnection) (d : SessionDescription)
    (hpc : st.peerConnection = some pc) :
    (st.makingOffer = true ∨
        (pc.signalingState ≠ SignalingState.stable ∧ st.connectionState.isInitiator = false) →
      onOffer st d false = (st, [])) ∧
    (st.makingOffer = false →
      (pc.signalingState = SignalingState.stable ∨ st.connectionState.isInitiator = true) →
      onOffer st d false =
        ({ st with
            peerConnection := some
              { pc with
                  remoteDescription := some d
                  localDescription := some (mkAnswer d)
                  signalingState := SignalingState.stable } },
          [SocketEmit.answer (mkAnswer d)])) ∧
    (∀ st2 f, st2.connectionState.isInitiator = false →
      countOffers (onNegotiationNeeded st2 f).2 = 0) := by
  refine ⟨?_, ?_, ?_⟩
  · rintro (hm | ⟨hs, hi⟩)
    · simp [onOffer, hpc, offerCollision, hm]
    · have hstable : pc.signalingState.isStable = false := by
        cases hx : pc.signalingState <;> simp_all [SignalingState.isStable]
      simp [onOffer, hpc, offerCollision, hstable, hi]
  · intro hm hsi
    have hcol : offerCollision st pc = false := by
      rcases hsi with hs | hi
      · simp [offerCollision, hm, hs, SignalingState.isStable]
      · simp [offerCollision, hm, hi]
    simp [onOffer, hpc, hcol]
  · intro st2 f h
    cases hp : st2.peerConnection <;>
      simp [onNegotiationNeeded, negTriggerStart, hp, h, countOffers]

/-- C1 witness: with a live stable handle, a colliding offer (this side
mid-offer) is discarded unchanged, and a non-colliding offer produces
exactly the emitted answer. -/
theorem C1_offer_glare_witness :
    onOffer { exState with makingOffer := true }
        { sdpType := SdpType.offer, sdp := 9 } false
      = ({ exState with makingOffer := true }, []) ∧
    (onOffer exState { sdpType := SdpType.offer, sdp := 9 } false).2
      = [SocketEmit.answer (mkAnswer { sdpType := SdpType.offer, sdp := 9 })] := by
  constructor
  · exact (C1_offer_glare { exState with makingOffer := true } exPC
      { sdpType := SdpType.offer, sdp := 9 } rfl).1 (Or.inl rfl)
  · rw [(C1_offer_glare exState exPC
      { sdpType := SdpType.offer, sdp := 9 } rfl).2.1 rfl (Or.inl rfl)]

/-- C7: a stale answer (no handle) and a stale or early candidate (no
handle, or no remote description yet) are dropped without any state
change; a live answer becomes the remote description without touching the
connection status; a candidate with a remote description in place is
appended to the handle's candidate list (no queueing happens in the
dropped cases). -/
theorem C7_stale_events (st : AppState) (d : SessionDescription) (c : Nat) :
    (st.peerConnection = none →
      onAnswer st d false = (st, []) ∧ onIceCandidateIn st c = st) ∧
    (∀ pc, st.peerConnection = some pc →
      onAnswer st d false =
        ({ st with
            peerConnection := some
              { pc with
                  remoteDescription := some d
                  signalingState := SignalingState.stable } }, [])) ∧
    (∀ pc, st.peerConnection = some pc → pc.remoteDescription = none →
      onIceCandidateIn st c = st) ∧
    (∀ pc r, st.peerConnection = some pc → pc.remoteDescription = some r →
      onIceCandidateIn st c =
        { st with peerConnection := some { pc with candidates := pc.candidates ++ [c] } }) := by
  refine ⟨?_, ?_, ?_, ?_⟩
  · intro h
    exact ⟨by simp [onAnswer, h], by simp [onIceCandidateIn, h]⟩
  · intro pc h
    simp [onAnswer, h]
  · intro pc h hr
    simp [onIceCandidateIn, h, hr]
  · intro pc r h hr
    simp [onIceCandidateIn, h, hr]

/-- C7 witness: at the initial state (no handle) both stale events are
no-ops; at a live handle with a remote description already set, the
candidate is appended. -/
theorem C7_stale_events_witness :
    onAnswer initState { sdpType := SdpType.answer, sdp := 4 } false = (initState, []) ∧
    onIceCandidateIn initState 11 = initState ∧
    onIceCandidateIn
        { exState with
            peerConnection := some
              { exPC with remoteDescription := some { sdpType := SdpType.offer, sdp := 2 } } } 11
      = { exState with
            peerConnection := some
              { exPC with
                  remoteDescription := some { sdpType := SdpType.offer, sdp := 2 }
                  candidates := [11] } } := by
  refine ⟨?_, ?_, ?_⟩
  · exact ((C7_stale_events initState { sdpType := SdpType.answer, sdp := 4 } 11).1 rfl).1
  · exact ((C7_stale_events initState { sdpType := SdpType.answer, sdp := 4 } 11).1 rfl).2
  · exact (C7_stale_events
      { exState with
          peerConnection := some
            { exPC with remoteDescription := some { sdpType := SdpType.offer, sdp := 2 } } }
      { sdpType := SdpType.answer, sdp := 4 } 11).2.2.2
      { exPC with remoteDescription := some { sdpType := SdpType.offer, sdp := 2 } }
      { sdpType := SdpType.offer, sdp := 2 } rfl rfl

/-- C6 counterexample: at a concrete state with a live handle, a failing
answer application does NOT leave the Negotiation Handle intact — the
catch branch runs `handleDisconnect`, which closes and clears the handle
and resets the status to "Disconnected".  This refutes the claim that
mid-negotiation failures are converted to a non-fatal status update with
the handle left intact. -/
theorem C6_failure_tears_down_counterexample :
    exState.peerConnection = some exPC ∧
    (onAnswer exState { sdpType := SdpType.answer, sdp := 4 } true).1.peerConnection = none ∧
    (onAnswer exState { sdpType := SdpType.answer, sdp := 4 } true).1.connectionState.status
      = "Disconnected" := by
  exact ⟨rfl, rfl, rfl⟩

/-- C6 amended: a failure while handling an inbound offer (outside the
collision early-return) or answer is caught and not rethrown, but it runs
the disconnect path: the handle is closed and cleared, the remote stream
cleared and the status set to "Disconnected".  Only the renegotiation
trigger's failure is the non-fatal case that leaves the handle intact with
an error text. -/
theorem C6_mid_negotiation_failure (st : AppState) (pc : PeerConnection)
    (d : SessionDescription) (hpc : st.peerConnection = some pc) :
    onAnswer st d true = (handleDisconnect st, []) ∧
    (st.makingOffer = false → pc.signalingState = SignalingState.stable →
      onOffer st d true = (handleDisconnect st, [])) ∧
    (handleDisconnect st).peerConnection = none ∧
    (handleDisconnect st).remoteStream = none ∧
    (handleDisconnect st).connectionState.status = "Disconnected" ∧
    (st.isNegotiating = false → st.connectionState.isInitiator = true →
      (onNegotiationNeeded st true).1.peerConnection = st.peerConnection ∧
      (onNegotiationNeeded st true).1.connectionState.error
        = some "Connection negotiation failed" ∧
      (onNegotiationNeeded st true).2 = []) := by
  refine ⟨?_, ?_, ?_, ?_, ?_, ?_⟩
  · simp [onAnswer, hpc]
  · intro hm hs
    have hcol : offerCollision st pc = false := by
      simp [offerCollision, hm, hs, SignalingState.isStable]
    simp [onOffer, hpc, hcol]
  · simp [handleDisconnect, cleanupPeerConnection, hpc]
  · simp [handleDisconnect, cleanupPeerConnection, hpc]
  · simp [handleDisconnect, cleanupPeerConnection, hpc]
  · intro hneg hinit
    simp [onNegotiationNeeded, negTriggerStart, negTriggerResume, hpc, hneg, hinit]

/-- C6 amended witness: at the sample live state, a failing answer runs the
disconnect path, and a failing renegotiation trigger on the initiator
leaves the handle in place with the non-fatal error text. -/
theorem C6_mid_negotiation_failure_witness :
    onAnswer exState { sdpType := SdpType.answer, sdp := 4 } true
      = (handleDisconnect exState, []) ∧
    (onNegotiationNeeded
        { exState with
            connectionState := { exState.connectionState with isInitiator := true } }
        true).1.peerConnection = some exPC := by
  constructor
  · exact (C6_mid_negotiation_failure exState exPC
      { sdpType := SdpType.answer, sdp := 4 } rfl).1
  · exact ((C6_mid_negotiation_failure
      { exState with
          connectionState := { exState.connectionState with isInitiator := true } }
      exPC { sdpType := SdpType.answer, sdp := 4 } rfl).2.2.2.2.2 rfl rfl).1

/-- A concrete mid-negotiation state: the `isNegotiating` flag is held, the
session is connected, and it is not waiting. -/
def exNegBusy : AppState :=
  { exState with
      isNegotiating := true
      connectionState := { exState.connectionState with isConnected := true } }

/-- C8 counterexample: at a concrete state that is mid-negotiation
(`isNegotiating` held) but not waiting, a find-partner click is NOT
rejected: it emits `find-match` and changes the connection state (the
connected flag drops, the handle is cleared).  This refutes the
mid-negotiation half of the claim. -/
theorem C8_mid_negotiation_click_counterexample :
    exNegBusy.isNegotiating = true ∧
    exNegBusy.connectionState.isWaiting = false ∧
    (findPartnerClick exNegBusy).2 = [SocketEmit.findMatch] ∧
    (findPartnerClick exNegBusy).1.connectionState.isConnected = false ∧
    exNegBusy.connectionState.isConnected = true := by
  exact ⟨rfl, rfl, rfl, rfl, rfl⟩

/-- C8 amended: a find-partner click while the status is Waiting is a
no-op (the button is disabled): nothing is emitted and the state is
unchanged.  A click while not waiting is not rejected: with the socket
connected it clears the handle, enters the waiting state and emits
`find-match`; with the socket disconnected it emits nothing. -/
theorem C8_find_partner_gate (st : AppState) :
    (st.connectionState.isWaiting = true → findPartnerClick st = (st, [])) ∧
    (st.connectionState.isWaiting = false → st.socketConnected = true →
      (findPartnerClick st).2 = [SocketEmit.findMatch] ∧
      (findPartnerClick st).1.connectionState.isWaiting = true ∧
      (findPartnerClick st).1.connectionState.isConnected = false ∧
      (findPartnerClick st).1.peerConnection = none) ∧
    (st.connectionState.isWaiting = false → st.socketConnected = false →
      (findPartnerClick st).2 = []) := by
  refine ⟨?_, ?_, ?_⟩
  · intro h
    simp [findPartnerClick, h]
  · intro h hs
    cases hp : st.peerConnection <;>
      simp [findPartnerClick, findPartner, cleanupPeerConnection, h, hs, hp]
  · intro h hs
    simp [findPartnerClick, findPartner, h, hs]

/-- C8 amended witness: a click while waiting is a no-op; a click on the
sample non-waiting connected state emits `find-match`. -/
theorem C8_find_partner_gate_witness :
    findPartnerClick
        { exState with
            connectionState := { exState.connectionState with isWaiting := true } }
      = ({ exState with
            connectionState := { exState.connectionState with isWaiting := true } }, []) ∧
    (findPartnerClick exState).2 = [SocketEmit.findMatch] := by
  constructor
  · exact (C8_find_partner_gate
      { exState with
          connectionState := { exState.connectionState with isWaiting := true } }).1 rfl
  · exact ((C8_find_partner_gate exState).2.1 rfl rfl).1

/-- A concrete live state whose retry counter sits at the ceiling. -/
def exCeil : AppState :=
  { exState with
      connectionState := { exState.connectionState with reconnectAttempts := 3 } }

/-- C4: an ICE `failed` transition below the ceiling of 3 bumps the counter
by one and schedules the 2000 ms re-match without touching the handle; at
the ceiling it tears the handle down, surfaces the terminal error and
schedules nothing new; and reaching `connected` resets the counter to 0. -/
theorem C4_ice_failure_policy (st : AppState) :
    (st.connectionState.reconnectAttempts < MAX_RECONNECT_ATTEMPTS →
      (onIceStateChange st IceState.failed).connectionState.reconnectAttempts
        = st.connectionState.reconnectAttempts + 1 ∧
      (onIceStateChange st IceState.failed).scheduledRematch = some RECONNECT_DELAY ∧
      (onIceStateChange st IceState.failed).peerConnection = st.peerConnection) ∧
    (st.connectionState.reconnectAttempts = MAX_RECONNECT_ATTEMPTS →
      (onIceStateChange st IceState.failed).peerConnection = none ∧
      (onIceStateChange st IceState.failed).connectionState.error
        = some "Connection failed after multiple attempts" ∧
      (onIceStateChange st IceState.failed).connectionState.isConnected = false ∧
      (onIceStateChange st IceState.failed).scheduledRematch = st.scheduledRematch) ∧
    (onIceStateChange st IceState.connected).connectionState.reconnectAttempts = 0 ∧
    MAX_RECONNECT_ATTEMPTS = 3 ∧ RECONNECT_DELAY = 2000 := by
  refine ⟨?_, ?_, ?_, rfl, rfl⟩
  · intro h
    simp [onIceStateChange, h]
  · intro h
    cases hp : st.peerConnection <;>
      simp [onIceStateChange, h, MAX_RECONNECT_ATTEMPTS, handleDisconnect,
        cleanupPeerConnection, hp]
  · simp [onIceStateChange]

/-- C4 witness: at the sample state (counter 0) a failure schedules the
2000 ms re-match with counter 1; at the ceiling state the handle is gone
and the terminal error is set. -/
theorem C4_ice_failure_policy_witness :
    (onIceStateChange exState IceState.failed).connectionState.reconnectAttempts = 1 ∧
    (onIceStateChange exState IceState.failed).scheduledRematch = some 2000 ∧
    (onIceStateChange exCeil IceState.failed).peerConnection = none ∧
    (onIceStateChange exCeil IceState.failed).connectionState.error
      = some "Connection failed after multiple attempts" := by
  have h1 := (C4_ice_failure_policy exState).1 (by decide)
  have h2 := (C4_ice_failure_policy exCeil).2.1 rfl
  exact ⟨h1.1, h1.2.1, h2.1, h2.2.1⟩

theorem filter_not_closed_eq_nil (l : List PeerConnection)
    (h : ∀ pc ∈ l, pc.closed = true) : l.filter (fun p => !p.closed) = [] := by
  induction l with
  | nil => rfl
  | cons p ps ih =>
      have hp := h p (by simp)
      simp [List.filter_cons, hp, ih (fun q hq => h q (by simp [hq]))]

/-- C3: creating a connection on a state whose ledger holds only closed
handles yields a state with at most one live handle; any previously live
handle is now closed on the ledger, the remote stream is cleared, the
local stream is untouched, and the fresh handle is open with the local
tracks attached. -/
theorem C3_single_handle (st : AppState) (h : LedgerClosed st) :
    LedgerClosed (createPeerConnection st) ∧
    openHandles (createPeerConnection st) ≤ 1 ∧
    (∀ pc, st.peerConnection = some pc →
      { pc with closed := true } ∈ (createPeerConnection st).closedPCs) ∧
    (createPeerConnection st).remoteStream = none ∧
    (createPeerConnection st).localStream = st.localStream ∧
    (createPeerConnection st).peerConnection
      = some (newPC st.nextPcId (st.localStream.getD [])) ∧
    (newPC st.nextPcId (st.localStream.getD [])).closed = false ∧
    (newPC st.nextPcId (st.localStream.getD [])).attachedTracks
      = st.localStream.getD [] := by
  have hub : LedgerClosed (createPeerConnection st) := by
    intro q hq
    cases hp : st.peerConnection with
    | none =>
        apply h q
        simpa [createPeerConnection, cleanupPeerConnection, hp] using hq
    | some old =>
        simp [createPeerConnection, cleanupPeerConnection, hp] at hq
        rcases hq with hq | hq
        · simp [hq]
        · exact h q hq
  refine ⟨hub, ?_, ?_, ?_, ?_, ?_, rfl, rfl⟩
  · have hfil := filter_not_closed_eq_nil (createPeerConnection st).closedPCs hub
    have hone : openHandles (createPeerConnection st)
        = 1 + ((createPeerConnection st).closedPCs.filter (fun p => !p.closed)).length := by
      cases hp : st.peerConnection <;>
        simp [openHandles, createPeerConnection, cleanupPeerConnection, newPC, hp]
    rw [hone, hfil]
    simp
  · intro pc hp
    simp [createPeerConnection, cleanupPeerConnection, hp]
  · cases hp : st.peerConnection <;>
      simp [createPeerConnection, cleanupPeerConnection, hp]
  · cases hp : st.peerConnection <;>
      simp [createPeerConnection, cleanupPeerConnection, hp]
  · cases hp : st.peerConnection <;>
      simp [createPeerConnection, cleanupPeerConnection, hp]

/-- C3 witness: creating a connection over the sample live state leaves at
most one open handle, and the old handle sits closed on the ledger. -/
theorem C3_single_handle_witness :
    openHandles (createPeerConnection exState) ≤ 1 ∧
    { exPC with closed := true } ∈ (createPeerConnection exState).closedPCs := by
  have h := C3_single_handle exState (by intro q hq; simp [exState, initState] at hq)
  exact ⟨h.2.1, h.2.2.1 exPC rfl⟩

theorem runTriggers_held (n : Nat) :
    ∀ st : AppState, HeldSeq st n →
      (runTriggers st n).2 = 0 ∧ (runTriggers st n).1.peerConnection = st.peerConnection := by
  induction n with
  | zero => intro st _; exact ⟨rfl, rfl⟩
  | succ n ih =>
      intro st h
      simp only [HeldSeq] at h
      obtain ⟨hneg, hrest⟩ := h
      have hstep : (onNegotiationNeeded st false).1.peerConnection = st.peerConnection ∧
          countOffers (onNegotiationNeeded st false).2 = 0 := by
        cases hp : st.peerConnection <;>
          simp [onNegotiationNeeded, negTriggerStart, hp, hneg, countOffers]
      have hih := ih (onNegotiationNeeded st false).1 hrest
      constructor
      · simp only [runTriggers]
        rw [hstep.2, hih.1]
      · simp only [runTriggers]
        rw [hih.2, hstep.1]

/-- C2: from an idle initiator state with a live handle, a renegotiation
trigger enters the guarded section; every further trigger that fires while
the `isNegotiating` flag is held emits nothing; the suspended trigger's
resumption emits exactly one offer, and both flags end false.  A trigger
on a peer without the initiator role emits no offer, and every completed
trigger handler — successful, failed or early-returned — leaves both
flags false (the early `return` sits inside the `try`, so the `finally`
clears them too). -/
theorem C2_single_offer (st : AppState) (pc : PeerConnection) (n : Nat)
    (hpc : st.peerConnection = some pc)
    (hneg : st.isNegotiating = false)
    (hinit : st.connectionState.isInitiator = true)
    (hheld : HeldSeq (negTriggerStart st).1 n) :
    (negTriggerStart st).2 = true ∧
    (runTriggers (negTriggerStart st).1 n).2 = 0 ∧
    countOffers (negTriggerResume (runTriggers (negTriggerStart st).1 n).1 false).2 = 1 ∧
    (negTriggerResume (runTriggers (negTriggerStart st).1 n).1 false).1.isNegotiating
      = false ∧
    (negTriggerResume (runTriggers (negTriggerStart st).1 n).1 false).1.makingOffer
      = false ∧
    (∀ st2 f, st2.connectionState.isInitiator = false →
      countOffers (onNegotiationNeeded st2 f).2 = 0) ∧
    (∀ st2 pc2 f, st2.peerConnection = some pc2 →
      (onNegotiationNeeded st2 f).1.isNegotiating = false ∧
      (onNegotiationNeeded st2 f).1.makingOffer = false) := by
  have hrun := runTriggers_held n (negTriggerStart st).1 hheld
  have hpc2 : (runTriggers (negTriggerStart st).1 n).1.peerConnection = some pc := by
    rw [hrun.2]
    simp [negTriggerStart, hpc, hneg, hinit]
  refine ⟨by simp [negTriggerStart, hpc, hneg, hinit], hrun.1, ?_, ?_, ?_, ?_, ?_⟩
  · simp [negTriggerResume, hpc2, countOffers]
  · simp [negTriggerResume, hpc2]
  · simp [negTriggerResume, hpc2]
  · intro st2 f h2
    cases hp : st2.peerConnection <;>
      simp [onNegotiationNeeded, negTriggerStart, hp, h2, countOffers]
  · intro st2 pc2 f h2
    cases hn2 : st2.isNegotiating <;> cases hi2 : st2.connectionState.isInitiator <;>
      cases f <;>
      simp [onNegotiationNeeded, negTriggerStart, negTriggerResume, h2, hn2, hi2]

/-- A concrete idle initiator state with a live handle. -/
def exInit : AppState :=
  { exState with
      connectionState := { exState.connectionState with isInitiator := true } }

/-- C2 witness: on the sample initiator state, the trigger enters the
guarded section; one further trigger fired while the flag is held emits
nothing; the resumption emits exactly one offer and clears both flags. -/
theorem C2_single_offer_witness :
    (negTriggerStart exInit).2 = true ∧
    (runTriggers (negTriggerStart exInit).1 1).2 = 0 ∧
    countOffers (negTriggerResume (runTriggers (negTriggerStart exInit).1 1).1 false).2
      = 1 ∧
    (negTriggerResume (runTriggers (negTriggerStart exInit).1 1).1 false).1.isNegotiating
      = false := by
  have h := C2_single_offer exInit exPC 1 rfl rfl rfl ⟨rfl, trivial⟩
  exact ⟨h.1, h.2.1, h.2.2.1, h.2.2.2.1⟩

/-- C5: the invariant fails on the code.  Along the ordinary responder
flow — a `waiting` event, then an inbound offer (which builds the handle
and answers), then remote-track arrival — the reached state has both
`isConnected` and `isWaiting` true: the `ontrack` handler sets
`isConnected` without clearing `isWaiting`, and nothing on the responder
path clears it. -/
theorem C5_connected_and_waiting_reachable :
    (reach [Ev.waitingEv, Ev.offerIn { sdpType := SdpType.offer, sdp := 0 } false,
        Ev.trackEv 0]).connectionState.isConnected = true ∧
    (reach [Ev.waitingEv, Ev.offerIn { sdpType := SdpType.offer, sdp := 0 } false,
        Ev.trackEv 0]).connectionState.isWaiting = true := by
  exact ⟨rfl, rfl⟩

end GuffGaff
